import Mathlib

/-!
Verification of `gardenrelay.py`, a BLE command-line utility controlling two
relays through a single-byte GATT characteristic (bit0 = relay 1,
bit1 = relay 2).

Python integers are embedded as `Int`; Python's bitwise `&`, `|`, `~` on
arbitrary-precision signed integers are exactly `Int.land`, `Int.lor`,
`Int.lnot` (two's complement).  The BLE stack (bleak) is an external
library; its observable behaviour at each call site is supplied by an
explicit environment (`Env`): the list of devices a scan discovers, and the
outcome (connection success, returned bytes, write success) of each
successive read / write call.  Timeout and backoff values are floats that
are only handed to the BLE layer and to `sleep`; they do not influence the
control flow modelled here, so they are not carried in the model.
-/

/-- The distinguishable failures raised inside the script: `BleakError
("Failed to connect")`, `BleakError("Empty read")`, and an exception raised
by `write_gatt_char`. -/
inductive BleError where
  | connectFailed
  | emptyRead
  | writeFailed
  deriving DecidableEq, Repr

/-- A device as seen by `BleakScanner.discover`: `d.name` (which may be
`None`) and `d.address`. -/
structure Device where
  name : Option String
  address : String
  deriving DecidableEq, Repr

/-- Outcome of one connection + read attempt: whether `is_connected`
succeeded and the bytes `read_gatt_char` returned. -/
structure ReadOutcome where
  connected : Bool
  data : List Int
  deriving DecidableEq, Repr

/-- Outcome of one connection + write attempt: whether `is_connected`
succeeded and whether `write_gatt_char` succeeded. -/
structure WriteOutcome where
  connected : Bool
  writeOk : Bool
  deriving DecidableEq, Repr

/-- One observable GATT write: the byte string handed to
`write_gatt_char` and its `response` flag. -/
structure WriteCall where
  payload : List Int
  response : Bool
  deriving DecidableEq, Repr

/-- `find_address_by_name` (gardenrelay.py lines 39-46): scan results are
traversed in order; the first device whose advertised name equals the
requested name yields its address; otherwise `None`. -/
def find_address_by_name (discovered : List Device) (name : String) : Option String :=
  match discovered with
  | [] => none
  | d :: rest =>
      if d.name = some name then some d.address
      else find_address_by_name rest name

/-- `read_bits` (lines 49-58): raises `Failed to connect` when the client is
not connected, raises `Empty read` on zero returned bytes, otherwise
returns `data[0] & 0x03`. -/
def read_bits (o : ReadOutcome) : Except BleError Int :=
  if !o.connected then .error .connectFailed
  else
    match o.data with
    | [] => .error .emptyRead
    | b :: _ => .ok (Int.land b 3)

/-- `write_bits` (lines 61-69): first `bits &= 0x03`, then raises
`Failed to connect` when not connected, then transmits
`bytes([bits])` with `response=False`. -/
def write_bits (o : WriteOutcome) (bits : Int) : Except BleError WriteCall :=
  let bits := Int.land bits 3
  if !o.connected then .error .connectFailed
  else if !o.writeOk then .error .writeFailed
  else .ok { payload := [bits], response := false }

/-- `compose_bits` (lines 72-80), translated literally: an explicit
`set_bits` returns `set_bits & 0x03` at once; otherwise start from
`current & 0x03`, clear-and-set bit 0 when `r1` is given
(`(bits & ~0x01) | (0x01 if r1 == "on" else 0x00)`), likewise bit 1 for
`r2`, and return `bits & 0x03`. -/
def compose_bits (current : Int) (r1 r2 : Option String) (set_bits : Option Int) : Int :=
  match set_bits with
  | some sb => Int.land sb 3
  | none =>
      let bits := Int.land current 3
      let bits :=
        match r1 with
        | none => bits
        | some v => Int.lor (Int.land bits (Int.lnot 1)) (if v = "on" then 1 else 0)
      let bits :=
        match r2 with
        | none => bits
        | some v => Int.lor (Int.land bits (Int.lnot 2)) (if v = "on" then 2 else 0)
      Int.land bits 3

/-! ### Arithmetic characterisation of the bitwise operations used above -/

theorem testBit_add_two_of_lt_four (x : Nat) (h : x < 4) (i : Nat) :
    x.testBit (i + 2) = false := by
  rw [Nat.testBit_succ, Nat.testBit_succ]
  have h0 : x / 2 / 2 = 0 := by omega
  rw [h0]
  exact Nat.zero_testBit i

/-- Masking with `3` is reduction modulo `4`, for every integer (including
negative ones, by two's complement). -/
theorem int_land_three (x : Int) : Int.land x 3 = x % 4 := by
  cases x with
  | ofNat n =>
      show ((n &&& 3 : Nat) : Int) = (n : Int) % 4
      have h : n &&& 3 = n % 4 := by
        have := Nat.and_pow_two_sub_one_eq_mod n 2
        norm_num at this
        omega
      rw [h]
      omega
  | negSucc m =>
      show ((Nat.ldiff 3 m : Nat) : Int) = Int.negSucc m % 4
      have h1 : Nat.ldiff 3 m = 3 - m % 4 := by
        apply Nat.eq_of_testBit_eq
        intro i
        rw [Nat.testBit_ldiff]
        have hbit : ∀ j, j < 2 → m.testBit j = (m % 4).testBit j := by
          intro j hj
          rw [show (4 : Nat) = 2 ^ 2 by norm_num, Nat.testBit_mod_two_pow]
          simp [hj]
        have hcases : m % 4 = 0 ∨ m % 4 = 1 ∨ m % 4 = 2 ∨ m % 4 = 3 := by omega
        match i with
        | 0 =>
            rw [hbit 0 (by omega)]
            rcases hcases with h | h | h | h <;> rw [h] <;> decide
        | 1 =>
            rw [hbit 1 (by omega)]
            rcases hcases with h | h | h | h <;> rw [h] <;> decide
        | i + 2 =>
            rw [testBit_add_two_of_lt_four 3 (by omega),
              testBit_add_two_of_lt_four (3 - m % 4) (by omega)]
            rfl
      rw [h1, Int.negSucc_eq]
      omega

theorem ldiff_small (a b c : Nat) (ha : a < 4) (hb : b < 4) (hc : c < 4)
    (e0 : (a.testBit 0 && !b.testBit 0) = c.testBit 0)
    (e1 : (a.testBit 1 && !b.testBit 1) = c.testBit 1) :
    Nat.ldiff a b = c := by
  apply Nat.eq_of_testBit_eq
  intro i
  rw [Nat.testBit_ldiff]
  match i with
  | 0 => exact e0
  | 1 => exact e1
  | i + 2 =>
    rw [testBit_add_two_of_lt_four a ha, testBit_add_two_of_lt_four b hb,
      testBit_add_two_of_lt_four c hc]
    rfl

/-- Clearing bit 0 of a 2-bit value: `b & ~0x01 = b - b % 2`. -/
theorem int_land_lnot_one (b : Int) (h0 : 0 ≤ b) (h1 : b < 4) :
    Int.land b (Int.lnot 1) = b - b % 2 := by
  have hb : b = 0 ∨ b = 1 ∨ b = 2 ∨ b = 3 := by omega
  rcases hb with h | h | h | h <;> subst h
  · show ((Nat.ldiff 0 1 : Nat) : Int) = 0 - 0 % 2
    rw [ldiff_small 0 1 0 (by omega) (by omega) (by omega) (by decide) (by decide)]
    decide
  · show ((Nat.ldiff 1 1 : Nat) : Int) = 1 - 1 % 2
    rw [ldiff_small 1 1 0 (by omega) (by omega) (by omega) (by decide) (by decide)]
    decide
  · show ((Nat.ldiff 2 1 : Nat) : Int) = 2 - 2 % 2
    rw [ldiff_small 2 1 2 (by omega) (by omega) (by omega) (by decide) (by decide)]
    decide
  · show ((Nat.ldiff 3 1 : Nat) : Int) = 3 - 3 % 2
    rw [ldiff_small 3 1 2 (by omega) (by omega) (by omega) (by decide) (by decide)]
    decide

/-- Clearing bit 1 of a 2-bit value: `b & ~0x02 = b % 2`. -/
theorem int_land_lnot_two (b : Int) (h0 : 0 ≤ b) (h1 : b < 4) :
    Int.land b (Int.lnot 2) = b % 2 := by
  have hb : b = 0 ∨ b = 1 ∨ b = 2 ∨ b = 3 := by omega
  rcases hb with h | h | h | h <;> subst h
  · show ((Nat.ldiff 0 2 : Nat) : Int) = 0 % 2
    rw [ldiff_small 0 2 0 (by omega) (by omega) (by omega) (by decide) (by decide)]
    decide
  · show ((Nat.ldiff 1 2 : Nat) : Int) = 1 % 2
    rw [ldiff_small 1 2 1 (by omega) (by omega) (by omega) (by decide) (by decide)]
    decide
  · show ((Nat.ldiff 2 2 : Nat) : Int) = 2 % 2
    rw [ldiff_small 2 2 0 (by omega) (by omega) (by omega) (by decide) (by decide)]
    decide
  · show ((Nat.ldiff 3 2 : Nat) : Int) = 3 % 2
    rw [ldiff_small 3 2 1 (by omega) (by omega) (by omega) (by decide) (by decide)]
    decide

/-- The `r1` override step of `compose_bits` in arithmetic form: clear bit 0,
then add the override bit. -/
theorem override_bit0 (b : Int) (h0 : 0 ≤ b) (h1 : b < 4) (v : String) :
    Int.lor (Int.land b (Int.lnot 1)) (if v = "on" then 1 else 0) =
      (b - b % 2) + (if v = "on" then 1 else 0) := by
  rw [int_land_lnot_one b h0 h1]
  have hb : b = 0 ∨ b = 1 ∨ b = 2 ∨ b = 3 := by omega
  by_cases hv : v = "on" <;> simp only [hv, if_true, if_false] <;>
    rcases hb with h | h | h | h <;> subst h <;> decide

/-- The `r2` override step of `compose_bits` in arithmetic form: clear bit 1,
then add the override bit. -/
theorem override_bit1 (b : Int) (h0 : 0 ≤ b) (h1 : b < 4) (v : String) :
    Int.lor (Int.land b (Int.lnot 2)) (if v = "on" then 2 else 0) =
      b % 2 + (if v = "on" then 2 else 0) := by
  rw [int_land_lnot_two b h0 h1]
  have hb : b = 0 ∨ b = 1 ∨ b = 2 ∨ b = 3 := by omega
  by_cases hv : v = "on" <;> simp only [hv, if_true, if_false] <;>
    rcases hb with h | h | h | h <;> subst h <;> decide

/-- The closed arithmetic form of `compose_bits`: explicit `set_bits` gives
`set_bits mod 4`; otherwise bit 0 and bit 1 of `current mod 4` are replaced
by the given overrides. -/
theorem compose_bits_closed (c : Int) (r1 r2 : Option String) (sb : Option Int) :
    compose_bits c r1 r2 sb =
      match sb with
      | some s => s % 4
      | none =>
          let b0 := c % 4
          let b1 :=
            match r1 with
            | none => b0
            | some v => (b0 - b0 % 2) + (if v = "on" then 1 else 0)
          let b2 :=
            match r2 with
            | none => b1
            | some v => b1 % 2 + (if v = "on" then 2 else 0)
          b2 := by
  cases sb with
  | some s => simp [compose_bits, int_land_three]
  | none =>
      simp only [compose_bits]
      have hc : 0 ≤ c % 4 ∧ c % 4 < 4 :=
        ⟨Int.emod_nonneg c (by norm_num), Int.emod_lt_of_pos c (by norm_num)⟩
      rw [int_land_three c]
      cases r1 with
      | none =>
          cases r2 with
          | none =>
              simp only
              rw [int_land_three]
              omega
          | some v2 =>
              simp only
              rw [override_bit1 (c % 4) hc.1 hc.2 v2]
              by_cases hv : v2 = "on" <;> simp only [hv, if_true, if_false] <;>
                rw [int_land_three] <;> omega
      | some v1 =>
          cases r2 with
          | none =>
              simp only
              rw [override_bit0 (c % 4) hc.1 hc.2 v1]
              by_cases hv : v1 = "on" <;> simp only [hv, if_true, if_false] <;>
                rw [int_land_three] <;> omega
          | some v2 =>
              simp only
              rw [override_bit0 (c % 4) hc.1 hc.2 v1]
              by_cases hv : v1 = "on" <;> simp only [hv, if_true, if_false]
              · rw [override_bit1 ((c % 4 - c % 4 % 2) + 1) (by omega) (by omega) v2]
                by_cases hv2 : v2 = "on" <;> simp only [hv2, if_true, if_false] <;>
                  rw [int_land_three] <;> omega
              · rw [override_bit1 ((c % 4 - c % 4 % 2) + 0) (by omega) (by omega) v2]
                by_cases hv2 : v2 = "on" <;> simp only [hv2, if_true, if_false] <;>
                  rw [int_land_three] <;> omega

/-! ### The command-line program -/

/-- Python truthiness of the `address` values tested by `if not address:`:
`None` and the empty string are falsy. -/
def str_falsy : Option String → Bool
  | none => true
  | some s => s.isEmpty

/-- The parsed argument namespace produced by `build_parser` (lines
126-146).  The float-valued `--scan-timeout`, `--conn-timeout` and
`--backoff` options are only forwarded to the BLE layer and to `sleep` and
never influence control flow, so they are not carried here.  `--retries`
is `type=int`, hence `Int`. -/
structure Args where
  mac : Option String
  name : String
  retries : Int
  read : Bool
  set_bits : Option Int
  r1 : Option String
  r2 : Option String
  read_first : Bool
  read_back : Bool
  deriving DecidableEq, Repr

/-- The observable behaviour of the BLE stack during one invocation: the
devices a scan discovers, and the outcome of the n-th read call and the
n-th write call. -/
structure Env where
  discovered : List Device
  reads : Nat → ReadOutcome
  writes : Nat → WriteOutcome

/-- Accumulated observable effects of a run: how many read and write calls
were issued, and the successfully transmitted GATT writes, in order. -/
structure St where
  nReads : Nat
  nWrites : Nat
  sent : List WriteCall
  deriving DecidableEq, Repr

/-- The retry loop of `main_async` (lines 109-123): up to `fuel` attempts;
each attempt writes and, when `--read-back` is given, reads back; any
exception in either call is caught and the next attempt started; success
returns 0; exhaustion falls through to return 1. -/
def attempt_loop (env : Env) (rb : Bool) (target : Int) : Nat → St → Nat × St
  | 0, s => (1, s)
  | n + 1, s =>
      match write_bits (env.writes s.nWrites) target with
      | .error _ => attempt_loop env rb target n { s with nWrites := s.nWrites + 1 }
      | .ok w =>
          let s' : St := { s with nWrites := s.nWrites + 1, sent := s.sent ++ [w] }
          if rb then
            match read_bits (env.reads s'.nReads) with
            | .error _ => attempt_loop env rb target n { s' with nReads := s'.nReads + 1 }
            | .ok _ => (0, { s' with nReads := s'.nReads + 1 })
          else (0, s')

/-- `main_async` (lines 83-123).  The returned `Except` is `.ok rc` for a
normal `return rc`, and `.error e` for an exception that propagates out
(only the bare `read_bits` call of the read-only branch can do that).
`range(1, retries+1)` has `max(retries, 0)` elements, i.e.
`retries.toNat`. -/
def main_async (env : Env) (args : Args) : Except BleError Nat × St :=
  let s0 : St := ⟨0, 0, []⟩
  let address := args.mac
  let address := if str_falsy address then find_address_by_name env.discovered args.name
    else address
  if str_falsy address then (.ok 1, s0)
  else if args.read ∧ args.set_bits = none ∧ args.r1 = none ∧ args.r2 = none then
    match read_bits (env.reads 0) with
    | .ok _ => (.ok 0, ⟨1, 0, []⟩)
    | .error e => (.error e, ⟨1, 0, []⟩)
  else
    let cs : Int × St :=
      if args.read_first then
        match read_bits (env.reads 0) with
        | .ok v => (v, ⟨1, 0, []⟩)
        | .error _ => (0, ⟨1, 0, []⟩)
      else (0, s0)
    let target := compose_bits cs.1 args.r1 args.r2 args.set_bits
    if args.read_first ∧ target = cs.1 then (.ok 0, cs.2)
    else
      let r := attempt_loop env args.read_back target args.retries.toNat cs.2
      (.ok r.1, r.2)

/-- `DEFAULT_NAME` (line 34). -/
def DEFAULT_NAME : String := "ESP32 Garden"

/-- The raw command line as it reaches `argparse`: which options were given
and with which (already converted) values.  `name = none` means `--name`
was not given, so the default applies. -/
structure RawArgs where
  mac : Option String
  name : Option String
  retries : Int
  read : Bool
  set_bits : Option Int
  r1 : Option String
  r2 : Option String
  read_first : Bool
  read_back : Bool
  deriving DecidableEq, Repr

/-- `build_parser` + `parser.parse_args()` (lines 126-151): `--mac` and
`--name` form a mutually exclusive group, `--set-bits` has
`choices=range(0,4)`, `--r1`/`--r2` have `choices=["on","off"]`.  On any
violation argparse prints a usage message and calls `sys.exit(2)` — exit
status 2 is argparse's documented error exit code. -/
def parse_args (raw : RawArgs) : Except Nat Args :=
  if raw.mac.isSome ∧ raw.name.isSome then .error 2
  else if raw.set_bits.any (fun s => !decide (0 ≤ s ∧ s < 4)) then .error 2
  else if raw.r1.any (fun v => !decide (v = "on" ∨ v = "off")) then .error 2
  else if raw.r2.any (fun v => !decide (v = "on" ∨ v = "off")) then .error 2
  else .ok
    { mac := raw.mac
      name := raw.name.getD DEFAULT_NAME
      retries := raw.retries
      read := raw.read
      set_bits := raw.set_bits
      r1 := raw.r1
      r2 := raw.r2
      read_first := raw.read_first
      read_back := raw.read_back }

/-- `main` (lines 149-156), as the process exit status.  An argparse error
exits before the `try` block with argparse's own status; a
`KeyboardInterrupt` during `asyncio.run` (modelled by the `interrupted`
flag) gives 130; an exception propagating out of `main_async` is uncaught,
and an uncaught exception terminates the interpreter with status 1;
otherwise `SystemExit(rc)` carries `main_async`'s return value. -/
def main_entry (raw : RawArgs) (env : Env) (interrupted : Bool) : Nat :=
  match parse_args raw with
  | .error code => code
  | .ok args =>
      if interrupted then 130
      else
        match main_async env args with
        | (.ok rc, _) => rc
        | (.error _, _) => 1

/-! ### Behavioural helper lemmas -/

/-- With no `--mac` and no matching device, `main_async` returns 1 having
issued no read and no write. -/
theorem main_async_scan_fail (env : Env) (args : Args)
    (hmac : args.mac = none)
    (hfind : find_address_by_name env.discovered args.name = none) :
    main_async env args = (.ok 1, ⟨0, 0, []⟩) := by
  unfold main_async
  rw [hmac, hfind]
  rfl

/-- When every write attempt fails, the retry loop consumes exactly its
fuel in write attempts, transmits nothing, and returns 1. -/
theorem attempt_loop_all_fail (env : Env) (rb : Bool) (target : Int)
    (hfail : ∀ n, (env.writes n).writeOk = false) :
    ∀ (k : Nat) (s : St),
      attempt_loop env rb target k s = (1, { s with nWrites := s.nWrites + k }) := by
  intro k
  induction k with
  | zero => intro s; rfl
  | succ n ih =>
      intro s
      have hw : write_bits (env.writes s.nWrites) target = .error
          (if (env.writes s.nWrites).connected then .writeFailed else .connectFailed) := by
        unfold write_bits
        cases hc : (env.writes s.nWrites).connected <;>
          simp [hc, hfail s.nWrites]
      unfold attempt_loop
      rw [hw]
      rw [ih]
      simp
      omega

/-- The read-only branch of `main_async` (line 91-93): exactly one read, no
write and no retry; a successful read returns 0, a failing read lets the
exception propagate. -/
theorem main_async_read_path (env : Env) (args : Args) (m : String)
    (hmac : args.mac = some m) (hm : m.isEmpty = false)
    (hread : args.read = true) (hsb : args.set_bits = none)
    (hr1 : args.r1 = none) (hr2 : args.r2 = none) :
    main_async env args =
      match read_bits (env.reads 0) with
      | .ok _ => (.ok 0, ⟨1, 0, []⟩)
      | .error e => (.error e, ⟨1, 0, []⟩) := by
  unfold main_async
  rw [hmac]
  simp only [str_falsy, hm, Bool.false_eq_true, if_false, hread, hsb, hr1, hr2,
    and_self, and_true, true_and, if_true]

/-- The write path of `main_async` with `--read-first` off: no read happens,
the composed target starts from current = 0, the no-op guard is skipped,
and the retry loop runs on the composed target. -/
theorem main_async_write_path (env : Env) (args : Args) (m : String)
    (hmac : args.mac = some m) (hm : m.isEmpty = false)
    (hread : args.read = false) (hrf : args.read_first = false) :
    main_async env args =
      (let r := attempt_loop env args.read_back
        (compose_bits 0 args.r1 args.r2 args.set_bits) args.retries.toNat ⟨0, 0, []⟩
       (.ok r.1, r.2)) := by
  unfold main_async
  rw [hmac]
  simp only [str_falsy, hm, Bool.false_eq_true, if_false, hread, false_and, hrf, if_true]

/-! ### Claims -/

/-- C1: for current in [0,3], r1 and r2 in {on, off, unspecified} and
set_bits in {0..3, unspecified}, `compose_bits` returns `set_bits` when it
is given; otherwise it returns the current value with bit 0 replaced by the
r1 override and bit 1 by the r2 override, each unspecified bit keeping the
corresponding bit of current. -/
theorem compose_bits_spec_C1 (current : Int) (r1 r2 : Option String) (set_bits : Option Int)
    (hc0 : 0 ≤ current) (hc3 : current ≤ 3)
    (hr1 : r1 = none ∨ r1 = some "on" ∨ r1 = some "off")
    (hr2 : r2 = none ∨ r2 = some "on" ∨ r2 = some "off")
    (hsb : set_bits = none ∨ ∃ s, set_bits = some s ∧ 0 ≤ s ∧ s ≤ 3) :
    (∀ s, set_bits = some s → compose_bits current r1 r2 set_bits = s) ∧
    (set_bits = none →
      compose_bits current r1 r2 set_bits % 2 =
        (match r1 with
         | some v => if v = "on" then 1 else 0
         | none => current % 2) ∧
      compose_bits current r1 r2 set_bits / 2 % 2 =
        (match r2 with
         | some v => if v = "on" then 1 else 0
         | none => current / 2 % 2)) := by
  constructor
  · intro s hs
    rcases hsb with h | ⟨s', hs', h0, h3⟩
    · rw [h] at hs; cases hs
    · rw [hs'] at hs
      injection hs with hss
      subst hss
      rw [hs', compose_bits_closed]
      simp only
      omega
  · intro hn
    subst hn
    rw [compose_bits_closed]
    rcases hr1 with h1 | h1 | h1 <;> subst h1 <;>
      rcases hr2 with h2 | h2 | h2 <;> subst h2 <;>
        simp only [if_true, if_false, String.reduceEq, reduceIte] <;>
        constructor <;> omega

theorem compose_bits_spec_C1_witness :
    (∀ s, (none : Option Int) = some s → compose_bits 2 (some "on") none none = s) ∧
    ((none : Option Int) = none →
      compose_bits 2 (some "on") none none % 2 =
        (match (some "on" : Option String) with
         | some v => if v = "on" then 1 else 0
         | none => (2 : Int) % 2) ∧
      compose_bits 2 (some "on") none none / 2 % 2 =
        (match (none : Option String) with
         | some v => if v = "on" then 1 else 0
         | none => (2 : Int) / 2 % 2)) :=
  compose_bits_spec_C1 2 (some "on") none none (by decide) (by decide)
    (Or.inr (Or.inl rfl)) (Or.inl rfl) (Or.inl rfl)

/-- C2: for any input bitmask 0-255, a successful write transmits exactly
one byte, equal to the input reduced to its low 2 bits (so bits 2-7 are
zero), with `response=False` (write without acknowledgement). -/
theorem write_bits_payload_C2 (bits : Int) (h0 : 0 ≤ bits) (h255 : bits ≤ 255)
    (o : WriteOutcome) (hc : o.connected = true) (hw : o.writeOk = true) :
    write_bits o bits = .ok { payload := [bits % 4], response := false } ∧
    0 ≤ bits % 4 ∧ bits % 4 < 4 := by
  refine ⟨?_, by omega, by omega⟩
  unfold write_bits
  rw [int_land_three]
  simp [hc, hw]

theorem write_bits_payload_C2_witness :
    write_bits ⟨true, true⟩ 255 = .ok { payload := [(255 : Int) % 4], response := false } ∧
    0 ≤ (255 : Int) % 4 ∧ (255 : Int) % 4 < 4 :=
  write_bits_payload_C2 255 (by decide) (by decide) ⟨true, true⟩ rfl rfl

/-- C6: a successful read of a first byte b in 0-255 returns b reduced to
its low 2 bits, whatever bits 2-7 contain; a read returning zero bytes
fails with the empty-response error. -/
theorem read_bits_mask_C6 :
    (∀ (b : Int) (rest : List Int), 0 ≤ b → b ≤ 255 →
      read_bits ⟨true, b :: rest⟩ = .ok (b % 4) ∧ 0 ≤ b % 4 ∧ b % 4 ≤ 3) ∧
    read_bits ⟨true, []⟩ = .error .emptyRead := by
  constructor
  · intro b rest h0 h255
    refine ⟨?_, by omega, by omega⟩
    show Except.ok (Int.land b 3) = Except.ok (b % 4)
    rw [int_land_three]
  · rfl

theorem read_bits_mask_C6_witness :
    (read_bits ⟨true, [255]⟩ = .ok ((255 : Int) % 4) ∧
      0 ≤ (255 : Int) % 4 ∧ (255 : Int) % 4 ≤ 3) ∧
    read_bits ⟨true, []⟩ = .error .emptyRead :=
  ⟨read_bits_mask_C6.1 255 [] (by decide) (by decide), read_bits_mask_C6.2⟩

/-- C9: composing twice with identical overrides equals composing once, for
every current value (any integer), overrides and optional set_bits. -/
theorem compose_bits_idempotent_C9 (current : Int) (r1 r2 : Option String)
    (set_bits : Option Int) :
    compose_bits (compose_bits current r1 r2 set_bits) r1 r2 set_bits =
      compose_bits current r1 r2 set_bits := by
  simp only [compose_bits_closed]
  cases set_bits with
  | some s => simp
  | none =>
      simp only
      cases r1 with
      | none =>
          cases r2 with
          | none => simp only; omega
          | some v2 => by_cases h2 : v2 = "on" <;> simp only [h2, if_true, if_false] <;> omega
      | some v1 =>
          by_cases h1 : v1 = "on" <;>
            cases r2 with
            | none => simp only [h1, if_true, if_false] <;> omega
            | some v2 =>
                by_cases h2 : v2 = "on" <;> simp only [h1, h2, if_true, if_false] <;> omega

/-- C7: scanning returns the address of the first discovered device whose
advertised name matches exactly; when none matches, resolution fails and
the program returns 1 having issued no read and no write. -/
theorem find_address_C7 :
    (∀ (pre : List Device) (d : Device) (post : List Device) (nm : String),
      (∀ x ∈ pre, ¬ x.name = some nm) → d.name = some nm →
      find_address_by_name (pre ++ d :: post) nm = some d.address) ∧
    (∀ (l : List Device) (nm : String),
      (∀ x ∈ l, ¬ x.name = some nm) → find_address_by_name l nm = none) ∧
    (∀ (env : Env) (args : Args), args.mac = none →
      find_address_by_name env.discovered args.name = none →
      main_async env args = (.ok 1, ⟨0, 0, []⟩)) := by
  refine ⟨?_, ?_, ?_⟩
  · intro pre d post nm hpre hd
    induction pre with
    | nil => simp [find_address_by_name, hd]
    | cons x rest ih =>
        have hx : ¬ x.name = some nm := hpre x (by simp)
        simp only [List.cons_append, find_address_by_name, hx, if_false]
        exact ih (fun y hy => hpre y (by simp [hy]))
  · intro l nm hl
    induction l with
    | nil => rfl
    | cons x rest ih =>
        have hx : ¬ x.name = some nm := hl x (by simp)
        simp only [find_address_by_name, hx, if_false]
        exact ih (fun y hy => hl y (by simp [hy]))
  · intro env args hmac hfind
    exact main_async_scan_fail env args hmac hfind

theorem find_address_C7_witness :
    find_address_by_name [⟨some "Other", "A1"⟩, ⟨some "ESP32 Garden", "A2"⟩,
        ⟨some "ESP32 Garden", "A3"⟩] "ESP32 Garden" = some "A2" ∧
    find_address_by_name [⟨some "Other", "A1"⟩, ⟨none, "A2"⟩] "ESP32 Garden" = none ∧
    main_async ⟨[⟨some "Other", "A1"⟩], fun _ => ⟨true, [0]⟩, fun _ => ⟨true, true⟩⟩
      ⟨none, "ESP32 Garden", 3, false, none, none, none, false, false⟩ =
      (.ok 1, ⟨0, 0, []⟩) :=
  ⟨find_address_C7.1 [⟨some "Other", "A1"⟩] ⟨some "ESP32 Garden", "A2"⟩
      [⟨some "ESP32 Garden", "A3"⟩] "ESP32 Garden" (by decide) rfl,
   find_address_C7.2.1 [⟨some "Other", "A1"⟩, ⟨none, "A2"⟩] "ESP32 Garden" (by decide),
   find_address_C7.2.2 ⟨[⟨some "Other", "A1"⟩], fun _ => ⟨true, [0]⟩, fun _ => ⟨true, true⟩⟩
      ⟨none, "ESP32 Garden", 3, false, none, none, none, false, false⟩ rfl (by decide)⟩

/-- C4: with `--read-first` on, a successful read of the current value, and
a composed target equal to that value, the program returns 0 having
performed no write. -/
theorem noop_guard_C4 (env : Env) (args : Args) (m : String)
    (hmac : args.mac = some m) (hm : m.isEmpty = false)
    (hrf : args.read_first = true)
    (v : Int) (hv : read_bits (env.reads 0) = .ok v)
    (ht : compose_bits v args.r1 args.r2 args.set_bits = v) :
    main_async env args = (.ok 0, ⟨1, 0, []⟩) := by
  unfold main_async
  rw [hmac]
  simp only [str_falsy, hm, Bool.false_eq_true, if_false]
  by_cases hb : args.read = true ∧ args.set_bits = none ∧ args.r1 = none ∧ args.r2 = none
  · rw [if_pos hb, hv]
  · rw [if_neg hb, hrf]
    simp only [if_true, hv, ht, and_self]

theorem noop_guard_C4_witness :
    main_async ⟨[], fun _ => ⟨true, [2]⟩, fun _ => ⟨true, true⟩⟩
      ⟨some "AA:BB:CC:DD:EE:FF", "ESP32 Garden", 3, false, none, none, some "on", true, false⟩ =
      (.ok 0, ⟨1, 0, []⟩) :=
  noop_guard_C4 ⟨[], fun _ => ⟨true, [2]⟩, fun _ => ⟨true, true⟩⟩
    ⟨some "AA:BB:CC:DD:EE:FF", "ESP32 Garden", 3, false, none, none, some "on", true, false⟩
    "AA:BB:CC:DD:EE:FF" rfl rfl rfl 2 rfl
    (by rw [compose_bits_closed]; decide)

/-- When `--read-first` is on and the initial read fails, `main_async`
continues with current = 0: the target is composed from 0, the no-op guard
compares against 0, and otherwise the retry loop runs. -/
theorem main_async_read_first_fail (env : Env) (args : Args) (m : String)
    (hmac : args.mac = some m) (hm : m.isEmpty = false)
    (hread : args.read = false) (hrf : args.read_first = true)
    (e : BleError) (hv : read_bits (env.reads 0) = .error e) :
    main_async env args =
      (let target := compose_bits 0 args.r1 args.r2 args.set_bits
       if target = 0 then (.ok 0, ⟨1, 0, []⟩)
       else
         (let r := attempt_loop env args.read_back target args.retries.toNat ⟨1, 0, []⟩
          (.ok r.1, r.2))) := by
  unfold main_async
  rw [hmac]
  simp only [str_falsy, hm, Bool.false_eq_true, if_false, hread, false_and, hrf, hv,
    true_and, if_true]

/-- C5: a failing read-first is tolerated: the run proceeds exactly as if
the current value were 0 (part 1); in particular with `--r1 on` and a
working link the composed value 1 is still written and the run succeeds
(part 2). -/
theorem read_first_tolerated_C5 :
    (∀ (env : Env) (args : Args) (m : String), args.mac = some m → m.isEmpty = false →
      args.read = false → args.read_first = true →
      ∀ e, read_bits (env.reads 0) = .error e →
      main_async env args =
        (let target := compose_bits 0 args.r1 args.r2 args.set_bits
         if target = 0 then (.ok 0, ⟨1, 0, []⟩)
         else
           (let r := attempt_loop env args.read_back target args.retries.toNat ⟨1, 0, []⟩
            (.ok r.1, r.2)))) ∧
    (∀ (env : Env) (args : Args) (m : String), args.mac = some m → m.isEmpty = false →
      args.read = false → args.read_first = true →
      args.r1 = some "on" → args.r2 = none → args.set_bits = none →
      args.read_back = false → 1 ≤ args.retries →
      (env.writes 0).connected = true → (env.writes 0).writeOk = true →
      ∀ e, read_bits (env.reads 0) = .error e →
      main_async env args = (.ok 0, ⟨1, 1, [⟨[1], false⟩]⟩)) := by
  constructor
  · intro env args m hmac hm hread hrf e hv
    exact main_async_read_first_fail env args m hmac hm hread hrf e hv
  · intro env args m hmac hm hread hrf hr1 hr2 hsb hrb hret hwc hwo e hv
    rw [main_async_read_first_fail env args m hmac hm hread hrf e hv]
    rw [hr1, hr2, hsb]
    have htgt : compose_bits 0 (some "on") none none = 1 := by
      rw [compose_bits_closed]; decide
    simp only [htgt]
    rw [if_neg (by decide)]
    obtain ⟨k, hk⟩ : ∃ k, args.retries.toNat = k + 1 := ⟨args.retries.toNat - 1, by omega⟩
    rw [hk, hrb]
    have hw1 : write_bits (env.writes 0) 1 = .ok ⟨[1], false⟩ := by
      unfold write_bits
      rw [int_land_three]
      simp [hwc, hwo]
    unfold attempt_loop
    rw [hw1]
    simp

theorem read_first_tolerated_C5_witness :
    main_async ⟨[], fun _ => ⟨false, []⟩, fun _ => ⟨true, true⟩⟩
      ⟨some "AA", "ESP32 Garden", 3, false, none, some "on", none, true, false⟩ =
      (let target := compose_bits 0 (some "on") none none
       if target = 0 then (.ok 0, ⟨1, 0, []⟩)
       else
         (let r := attempt_loop ⟨[], fun _ => ⟨false, []⟩, fun _ => ⟨true, true⟩⟩ false
            target (3 : Int).toNat ⟨1, 0, []⟩
          (.ok r.1, r.2))) ∧
    main_async ⟨[], fun _ => ⟨false, []⟩, fun _ => ⟨true, true⟩⟩
      ⟨some "AA", "ESP32 Garden", 3, false, none, some "on", none, true, false⟩ =
      (.ok 0, ⟨1, 1, [⟨[1], false⟩]⟩) :=
  ⟨read_first_tolerated_C5.1 ⟨[], fun _ => ⟨false, []⟩, fun _ => ⟨true, true⟩⟩
      ⟨some "AA", "ESP32 Garden", 3, false, none, some "on", none, true, false⟩
      "AA" rfl rfl rfl rfl .connectFailed rfl,
   read_first_tolerated_C5.2 ⟨[], fun _ => ⟨false, []⟩, fun _ => ⟨true, true⟩⟩
      ⟨some "AA", "ESP32 Garden", 3, false, none, some "on", none, true, false⟩
      "AA" rfl rfl rfl rfl rfl rfl rfl rfl (by decide) rfl rfl .connectFailed rfl⟩

/-- C10: with no action option at all (no read, no set-bits, no r1/r2, no
read-first), the program is not a no-op: it takes the write path with
current = 0, composes target 0, and writes bitmask 0, switching both
relays off. -/
theorem no_options_writes_zero_C10 (env : Env) (args : Args) (m : String)
    (hmac : args.mac = some m) (hm : m.isEmpty = false)
    (hread : args.read = false) (hsb : args.set_bits = none)
    (hr1 : args.r1 = none) (hr2 : args.r2 = none)
    (hrf : args.read_first = false) (hrb : args.read_back = false)
    (hret : 1 ≤ args.retries)
    (hwc : (env.writes 0).connected = true) (hwo : (env.writes 0).writeOk = true) :
    main_async env args = (.ok 0, ⟨0, 1, [⟨[0], false⟩]⟩) := by
  rw [main_async_write_path env args m hmac hm hread hrf]
  rw [hr1, hr2, hsb]
  have htgt : compose_bits 0 none none none = 0 := by
    rw [compose_bits_closed]; decide
  simp only [htgt]
  obtain ⟨k, hk⟩ : ∃ k, args.retries.toNat = k + 1 := ⟨args.retries.toNat - 1, by omega⟩
  rw [hk, hrb]
  have hw0 : write_bits (env.writes 0) 0 = .ok ⟨[0], false⟩ := by
    unfold write_bits
    rw [int_land_three]
    simp [hwc, hwo]
  unfold attempt_loop
  rw [hw0]
  simp

theorem no_options_writes_zero_C10_witness :
    main_async ⟨[], fun _ => ⟨true, [2]⟩, fun _ => ⟨true, true⟩⟩
      ⟨some "AA", "ESP32 Garden", 3, false, none, none, none, false, false⟩ =
      (.ok 0, ⟨0, 1, [⟨[0], false⟩]⟩) :=
  no_options_writes_zero_C10 ⟨[], fun _ => ⟨true, [2]⟩, fun _ => ⟨true, true⟩⟩
    ⟨some "AA", "ESP32 Garden", 3, false, none, none, none, false, false⟩
    "AA" rfl rfl rfl rfl rfl rfl rfl rfl (by decide) rfl rfl

/-- C3: when write attempts keep failing, the retry loop issues exactly the
configured number of write attempts, transmits nothing, and `main_async`
returns 1 (part 1); the read-only operation issues exactly one read and no
write — it is never retried — whatever the read's outcome (part 2). -/
theorem retry_policy_C3 :
    (∀ (env : Env) (args : Args) (m : String), args.mac = some m → m.isEmpty = false →
      args.read = false → args.read_first = false →
      (∀ n, (env.writes n).writeOk = false) →
      main_async env args = (.ok 1, ⟨0, args.retries.toNat, []⟩)) ∧
    (∀ (env : Env) (args : Args) (m : String), args.mac = some m → m.isEmpty = false →
      args.read = true → args.set_bits = none → args.r1 = none → args.r2 = none →
      (main_async env args).2.nReads = 1 ∧ (main_async env args).2.nWrites = 0) := by
  constructor
  · intro env args m hmac hm hread hrf hfail
    rw [main_async_write_path env args m hmac hm hread hrf]
    rw [attempt_loop_all_fail env args.read_back _ hfail args.retries.toNat ⟨0, 0, []⟩]
    simp
  · intro env args m hmac hm hread hsb hr1 hr2
    rw [main_async_read_path env args m hmac hm hread hsb hr1 hr2]
    cases read_bits (env.reads 0) <;> simp

theorem retry_policy_C3_witness :
    main_async ⟨[], fun _ => ⟨true, [2]⟩, fun _ => ⟨true, false⟩⟩
      ⟨some "AA", "ESP32 Garden", 3, false, none, some "on", none, false, false⟩ =
      (.ok 1, ⟨0, 3, []⟩) ∧
    (main_async ⟨[], fun _ => ⟨false, []⟩, fun _ => ⟨true, true⟩⟩
        ⟨some "AA", "ESP32 Garden", 3, true, none, none, none, false, false⟩).2.nReads = 1 ∧
    (main_async ⟨[], fun _ => ⟨false, []⟩, fun _ => ⟨true, true⟩⟩
        ⟨some "AA", "ESP32 Garden", 3, true, none, none, none, false, false⟩).2.nWrites = 0 :=
  ⟨retry_policy_C3.1 ⟨[], fun _ => ⟨true, [2]⟩, fun _ => ⟨true, false⟩⟩
      ⟨some "AA", "ESP32 Garden", 3, false, none, some "on", none, false, false⟩
      "AA" rfl rfl rfl rfl (fun _ => rfl),
   (retry_policy_C3.2 ⟨[], fun _ => ⟨false, []⟩, fun _ => ⟨true, true⟩⟩
      ⟨some "AA", "ESP32 Garden", 3, true, none, none, none, false, false⟩
      "AA" rfl rfl rfl rfl rfl rfl).1,
   (retry_policy_C3.2 ⟨[], fun _ => ⟨false, []⟩, fun _ => ⟨true, true⟩⟩
      ⟨some "AA", "ESP32 Garden", 3, true, none, none, none, false, false⟩
      "AA" rfl rfl rfl rfl rfl rfl).2⟩

/-- C8 counterexample: an invalid command line (`--set-bits 5`, outside
`choices=range(0,4)`) makes the process exit with argparse's error status
2, not 1 as the claim states. -/
theorem exit_codes_C8_counterexample :
    main_entry ⟨some "AA", none, 3, false, some 5, none, none, false, false⟩
      ⟨[], fun _ => ⟨true, [0]⟩, fun _ => ⟨true, true⟩⟩ false = 2 ∧ (2 : Nat) ≠ 1 :=
  ⟨rfl, by decide⟩

/-- C8 amended: exit status 0 on success or no-op, 1 on runtime failure
(device not found, retries exhausted), 2 — argparse's error exit status —
on bad command-line arguments, and 130 on user interrupt. -/
theorem exit_codes_C8_amended :
    (∀ (raw : RawArgs) (env : Env) (args : Args), parse_args raw = .ok args →
      args.mac = none → find_address_by_name env.discovered args.name = none →
      main_entry raw env false = 1) ∧
    (∀ (raw : RawArgs) (env : Env) (args : Args) (m : String), parse_args raw = .ok args →
      args.mac = some m → m.isEmpty = false → args.read = false → args.read_first = false →
      (∀ n, (env.writes n).writeOk = false) →
      main_entry raw env false = 1) ∧
    (∀ (raw : RawArgs) (env : Env) (args : Args) (m : String), parse_args raw = .ok args →
      args.mac = some m → m.isEmpty = false → args.read = true → args.set_bits = none →
      args.r1 = none → args.r2 = none → ∀ v, read_bits (env.reads 0) = .ok v →
      main_entry raw env false = 0) ∧
    (∀ (raw : RawArgs) (env : Env) (s : Int), raw.set_bits = some s → ¬(0 ≤ s ∧ s < 4) →
      ∀ i, main_entry raw env i = 2) ∧
    (∀ (raw : RawArgs) (env : Env) (args : Args), parse_args raw = .ok args →
      main_entry raw env true = 130) := by
  refine ⟨?_, ?_, ?_, ?_, ?_⟩
  · intro raw env args hpa hmac hfind
    unfold main_entry
    rw [hpa]
    simp only [Bool.false_eq_true, if_false]
    rw [main_async_scan_fail env args hmac hfind]
  · intro raw env args m hpa hmac hm hread hrf hfail
    unfold main_entry
    rw [hpa]
    simp only [Bool.false_eq_true, if_false]
    rw [main_async_write_path env args m hmac hm hread hrf]
    rw [attempt_loop_all_fail env args.read_back _ hfail args.retries.toNat ⟨0, 0, []⟩]
  · intro raw env args m hpa hmac hm hread hsb hr1 hr2 v hv
    unfold main_entry
    rw [hpa]
    simp only [Bool.false_eq_true, if_false]
    rw [main_async_read_path env args m hmac hm hread hsb hr1 hr2, hv]
  · intro raw env s hs hbad i
    unfold main_entry
    have hpe : parse_args raw = .error 2 := by
      unfold parse_args
      by_cases h1 : raw.mac.isSome = true ∧ raw.name.isSome = true
      · rw [if_pos h1]
      · rw [if_neg h1]
        have hd : decide (0 ≤ s ∧ s < 4) = false := decide_eq_false hbad
        rw [if_pos (by rw [hs]; simp [Option.any, hd])]
    rw [hpe]
  · intro raw env args hpa
    unfold main_entry
    rw [hpa]
    simp only [if_true]

theorem exit_codes_C8_amended_witness :
    main_entry ⟨none, none, 3, false, none, none, none, false, false⟩
      ⟨[], fun _ => ⟨true, [0]⟩, fun _ => ⟨true, true⟩⟩ false = 1 ∧
    main_entry ⟨some "AA", none, 3, false, none, none, none, false, false⟩
      ⟨[], fun _ => ⟨true, [0]⟩, fun _ => ⟨true, false⟩⟩ false = 1 ∧
    main_entry ⟨some "AA", none, 3, true, none, none, none, false, false⟩
      ⟨[], fun _ => ⟨true, [2]⟩, fun _ => ⟨true, true⟩⟩ false = 0 ∧
    main_entry ⟨some "AA", none, 3, false, some 5, none, none, false, false⟩
      ⟨[], fun _ => ⟨true, [0]⟩, fun _ => ⟨true, true⟩⟩ true = 2 ∧
    main_entry ⟨some "AA", none, 3, false, none, none, none, false, false⟩
      ⟨[], fun _ => ⟨true, [0]⟩, fun _ => ⟨true, true⟩⟩ true = 130 :=
  ⟨exit_codes_C8_amended.1 ⟨none, none, 3, false, none, none, none, false, false⟩
      ⟨[], fun _ => ⟨true, [0]⟩, fun _ => ⟨true, true⟩⟩
      ⟨none, DEFAULT_NAME, 3, false, none, none, none, false, false⟩ rfl rfl rfl,
   exit_codes_C8_amended.2.1 ⟨some "AA", none, 3, false, none, none, none, false, false⟩
      ⟨[], fun _ => ⟨true, [0]⟩, fun _ => ⟨true, false⟩⟩
      ⟨some "AA", DEFAULT_NAME, 3, false, none, none, none, false, false⟩
      "AA" rfl rfl rfl rfl rfl (fun _ => rfl),
   exit_codes_C8_amended.2.2.1 ⟨some "AA", none, 3, true, none, none, none, false, false⟩
      ⟨[], fun _ => ⟨true, [2]⟩, fun _ => ⟨true, true⟩⟩
      ⟨some "AA", DEFAULT_NAME, 3, true, none, none, none, false, false⟩
      "AA" rfl rfl rfl rfl rfl rfl rfl 2 rfl,
   exit_codes_C8_amended.2.2.2.1 ⟨some "AA", none, 3, false, some 5, none, none, false, false⟩
      ⟨[], fun _ => ⟨true, [0]⟩, fun _ => ⟨true, true⟩⟩ 5 rfl (by decide) true,
   exit_codes_C8_amended.2.2.2.2 ⟨some "AA", none, 3, false, none, none, none, false, false⟩
      ⟨[], fun _ => ⟨true, [0]⟩, fun _ => ⟨true, true⟩⟩
      ⟨some "AA", DEFAULT_NAME, 3, false, none, none, none, false, false⟩ rfl⟩
